import Mathlib

/-!
Shallow embedding of the core scoring pipeline of the news-article
evaluation service (`app/evaluator.py`, data model in `app/models.py`).

Machine floats are modelled as exact rationals (ℚ); the single use of
`numpy.std` (a square root) is modelled over ℝ.  NLP capability providers
(spaCy document analysis, the sentiment pipeline, the zero-shot
classification pipeline) are black boxes supplied as function parameters;
a fallible provider call is a function into `Except String`, mirroring a
Python call that may raise.  Python operations that can raise on their own
(`scores[0]` on a short list, `max([])`, `[...][0]`) are embedded with the
corresponding `Except` failure.
-/

namespace NewsEval

/-- One token of the spaCy document analysis: its punctuation flag
(`token.is_punct`) and its dependency label (`token.dep_`). -/
structure Token where
  is_punct : Bool
  dep : String
deriving DecidableEq

/-- The document-level analysis that `self.nlp(article.content)` returns:
the entity spans are kept only as their count (the code only takes
`len`), plus the token stream and the number of sentence spans. -/
structure DocAnalysis where
  ents : Nat
  tokens : List Token
  sents : Nat
deriving DecidableEq

/-- Result record of the zero-shot classification pipeline: a sequence of
labels and a sequence of scores, aligned positionally by the provider. -/
structure ZSResult where
  labels : List String
  scores : List ℚ
deriving DecidableEq

/-- One result record of the sentiment-analysis pipeline. -/
structure SentRes where
  score : ℚ
  label : String
deriving DecidableEq

/-- `app.models.Article` (pydantic); content is the raw character
sequence, categories an ordered list of labels, possibly empty. -/
structure Article where
  title : String
  content : List Char
  source : String
  published_date : Int
  author : Option String
  url : String
  categories : List String

/-- `app.models.ContentMetrics`. -/
structure ContentMetrics where
  named_entities_count : Nat
  fact_density_score : ℚ
  novelty_score : ℚ
  analytical_depth_score : ℚ
  readability_score : ℚ
  topic_relevance_score : ℚ
  sentiment_score : ℚ
deriving DecidableEq

/-- The three NLP capability providers held by `ArticleEvaluator`:
`self.nlp`, `self.zero_shot_classifier`, `self.sentiment_analyzer`.
Each call may fail (raise), modelled by `Except String`. -/
structure Providers where
  nlp : List Char → Except String DocAnalysis
  zero_shot : List Char → List String → Except String ZSResult
  sentiment : List Char → Except String (List SentRes)

/-- `self.MIN_NAMED_ENTITIES = 5`. -/
def MIN_NAMED_ENTITIES : Nat := 5

/-- `self.MIN_CONTENT_LENGTH = 200` (declared in `__init__`, never read
anywhere else in the class). -/
def MIN_CONTENT_LENGTH : Nat := 200

/-- `self.WORTHY_THRESHOLD = 0.7`. -/
def WORTHY_THRESHOLD : ℚ := 0.7

/-- The fixed label list of `_analyze_novelty`. -/
def noveltyLabels : List String :=
  ["breaking news", "common knowledge", "analysis", "opinion"]

/-- `_analyze_novelty`: submit the content to the zero-shot classifier
with the fixed labels and return `scores[0] * 0.7 + scores[2] * 0.3`
(positional indexing; out-of-range indexing raises). -/
def analyzeNovelty (zs : List Char → List String → Except String ZSResult)
    (content : List Char) : Except String ℚ := do
  let result ← zs content noveltyLabels
  match result.scores[0]?, result.scores[2]? with
  | some s0, some s2 => pure (s0 * 0.7 + s2 * 0.3)
  | _, _ => throw "IndexError: list index out of range"

/-- `_calculate_analytical_depth`: count tokens whose dependency label is
one of `['because', 'therefore', 'however', 'moreover']`, divide by 10 and
cap at 1. -/
def calculateAnalyticalDepth (doc : DocAnalysis) : ℚ :=
  let analytical_indicators : Nat :=
    (doc.tokens.filter (fun t =>
      t.dep ∈ ["because", "therefore", "however", "moreover"])).length
  min 1 ((analytical_indicators : ℚ) / 10)

/-- Number of non-punctuation tokens of the document
(`len([token for token in doc if not token.is_punct])`). -/
def wordCount (doc : DocAnalysis) : Nat :=
  (doc.tokens.filter (fun t => ¬ t.is_punct)).length

/-- `words / max(1, sentences)` — the average sentence length used by
`_calculate_readability_score`. -/
def avgSentenceLength (doc : DocAnalysis) : ℚ :=
  (wordCount doc : ℚ) / (max 1 doc.sents : Nat)

/-- `_calculate_readability_score`:
`1.0 - min(1.0, (avg_sentence_length - 10) / 30)`. -/
def calculateReadabilityScore (doc : DocAnalysis) : ℚ :=
  1 - min 1 ((avgSentenceLength doc - 10) / 30)

/-- `_analyze_topic_relevance`: with no declared categories return `0.5`
without any provider call; otherwise classify the content against the
article's own categories and take `max(result['scores'])` (Python `max`
raises on an empty sequence). -/
def analyzeTopicRelevance (zs : List Char → List String → Except String ZSResult)
    (article : Article) : Except String ℚ :=
  if article.categories = [] then
    pure 0.5
  else do
    let result ← zs article.content article.categories
    match result.scores.max? with
    | some m => pure m
    | none => throw "ValueError: max() arg is an empty sequence"

/-- `_analyze_sentiment`: run the sentiment pipeline on `content[:512]`,
take the first result record (`[0]`, raising when empty), return its
`score` as-is. -/
def analyzeSentiment (sa : List Char → Except String (List SentRes))
    (content : List Char) : Except String ℚ := do
  let results ← sa (content.take 512)
  match results.head? with
  | some r => pure r.score
  | none => throw "IndexError: list index out of range"

/-- `_calculate_metrics`: assemble the seven metrics from the shared
document analysis and the provider calls, in source order. -/
def calculateMetrics (P : Providers) (article : Article)
    (doc : DocAnalysis) : Except String ContentMetrics := do
  let named_entities_count := doc.ents
  let fact_density : ℚ := (named_entities_count : ℚ) / ((doc.tokens.length : ℚ) + 1)
  let novelty_score ← analyzeNovelty P.zero_shot article.content
  let analytical_depth := calculateAnalyticalDepth doc
  let readability := calculateReadabilityScore doc
  let topic_relevance ← analyzeTopicRelevance P.zero_shot article
  let sentiment ← analyzeSentiment P.sentiment article.content
  pure { named_entities_count := named_entities_count
         fact_density_score := fact_density
         novelty_score := novelty_score
         analytical_depth_score := analytical_depth
         readability_score := readability
         topic_relevance_score := topic_relevance
         sentiment_score := sentiment }

/-- `_calculate_overall_score`: the fixed weighted sum, then
`min(1.0, max(0.0, score))`. -/
def calculateOverallScore (metrics : ContentMetrics) : ℚ :=
  let score : ℚ :=
    0.2 * min 1 ((metrics.named_entities_count : ℚ) / 20) +
    0.2 * metrics.fact_density_score +
    0.15 * metrics.novelty_score +
    0.2 * metrics.analytical_depth_score +
    0.1 * metrics.readability_score +
    0.1 * metrics.topic_relevance_score +
    0.05 * |metrics.sentiment_score|
  min 1 (max 0 score)

/-- The four metrics collected by `_calculate_confidence_score`. -/
def confidenceInputs (metrics : ContentMetrics) : List ℚ :=
  [metrics.fact_density_score,
   metrics.novelty_score,
   metrics.analytical_depth_score,
   metrics.topic_relevance_score]

/-- `numpy.std` of a list of values, over ℝ: the square root of the mean
of the squared deviations from the mean (population convention,
`ddof = 0`). -/
noncomputable def npStd (l : List ℝ) : ℝ :=
  Real.sqrt (((l.map (fun x => (x - l.sum / l.length) ^ 2)).sum) / l.length)

/-- `_calculate_confidence_score`: `1.0 - np.std(scores)` over the four
collected metrics. -/
noncomputable def calculateConfidenceScore (metrics : ContentMetrics) : ℝ :=
  1 - npStd ((confidenceInputs metrics).map (fun q => (q : ℝ)))

/-- `_generate_evaluation_reasons`: sequential threshold checks appending
to a list, translated append-by-append. -/
def generateEvaluationReasons (metrics : ContentMetrics)
    (overall_score : ℚ) : List String :=
  let reasons : List String := []
  let reasons := if metrics.named_entities_count < MIN_NAMED_ENTITIES then
      reasons ++ ["Low number of named entities"] else reasons
  let reasons := if metrics.fact_density_score > 0.7 then
      reasons ++ ["High fact density"]
    else if metrics.fact_density_score < 0.3 then
      reasons ++ ["Low fact density"] else reasons
  let reasons := if metrics.novelty_score > 0.7 then
      reasons ++ ["High novelty content"]
    else if metrics.novelty_score < 0.3 then
      reasons ++ ["Low novelty content"] else reasons
  let reasons := if metrics.analytical_depth_score > 0.7 then
      reasons ++ ["Strong analytical depth"]
    else if metrics.analytical_depth_score < 0.3 then
      reasons ++ ["Lacks analytical depth"] else reasons
  let reasons := if overall_score ≥ WORTHY_THRESHOLD then
      reasons ++ ["Meets overall quality threshold for further analysis"] else reasons
  reasons

/-- `app.models.ArticleEvaluation`. -/
structure ArticleEvaluation where
  article_id : String
  overall_score : ℚ
  is_worthy : Bool
  metrics : ContentMetrics
  evaluation_timestamp : Int
  confidence_score : ℝ
  reasons : List String

/-- The pure tail of `evaluate`: given the computed metrics, derive the
overall score, worthiness flag, confidence and reasons and build the
`ArticleEvaluation` record.  The freshly drawn uuid and the current
timestamp enter as parameters. -/
noncomputable def assembleEvaluation (article_id : String)
    (now : Int) (metrics : ContentMetrics) : ArticleEvaluation :=
  let overall_score := calculateOverallScore metrics
  { article_id := article_id
    overall_score := overall_score
    is_worthy := decide (overall_score ≥ WORTHY_THRESHOLD)
    metrics := metrics
    evaluation_timestamp := now
    confidence_score := calculateConfidenceScore metrics
    reasons := generateEvaluationReasons metrics overall_score }

/-- `evaluate`: run the document analysis on the raw content, compute the
metrics, assemble the evaluation.  Any provider failure propagates. -/
noncomputable def evaluate (P : Providers) (article_id : String)
    (now : Int) (article : Article) : Except String ArticleEvaluation := do
  let doc ← P.nlp article.content
  let metrics ← calculateMetrics P article doc
  pure (assembleEvaluation article_id now metrics)

/-! ### Spec-side definitions -/

/-- Modelled from the spec: `clamp(0, 1, x)` — clamping a value into the
interval `[lo, hi]`. -/
def clamp (lo hi x : ℚ) : ℚ := max lo (min hi x)

/-- Modelled from the spec: the claimed aggregation formula
`clamp(0, 1, 0.20*min(1, count/20) + 0.20*fact + 0.15*novelty +
0.20*depth + 0.10*readability + 0.10*topic + 0.05*|sentiment|)`. -/
def specOverallScore (m : ContentMetrics) : ℚ :=
  clamp 0 1 (0.20 * min 1 ((m.named_entities_count : ℚ) / 20) +
    0.20 * m.fact_density_score + 0.15 * m.novelty_score +
    0.20 * m.analytical_depth_score + 0.10 * m.readability_score +
    0.10 * m.topic_relevance_score + 0.05 * |m.sentiment_score|)

/-- Modelled from the spec: the reason sequence as the concatenation, in
fixed order, of the independently triggered blocks. -/
def specReasons (m : ContentMetrics) (overall_score : ℚ) : List String :=
  (if m.named_entities_count < 5 then ["Low number of named entities"] else []) ++
  (if m.fact_density_score > 0.7 then ["High fact density"]
   else if m.fact_density_score < 0.3 then ["Low fact density"] else []) ++
  (if m.novelty_score > 0.7 then ["High novelty content"]
   else if m.novelty_score < 0.3 then ["Low novelty content"] else []) ++
  (if m.analytical_depth_score > 0.7 then ["Strong analytical depth"]
   else if m.analytical_depth_score < 0.3 then ["Lacks analytical depth"] else []) ++
  (if overall_score ≥ 0.7 then
    ["Meets overall quality threshold for further analysis"] else [])

/-- The document analysis of an empty document: no entities, no tokens,
no sentence spans. -/
def emptyDoc : DocAnalysis := { ents := 0, tokens := [], sents := 0 }

/-! ### Helper lemmas -/

/-- The average sentence length is a quotient of nonnegative numbers. -/
theorem avgSentenceLength_nonneg (doc : DocAnalysis) :
    0 ≤ avgSentenceLength doc := by
  unfold avgSentenceLength
  positivity

/-- The readability score is bounded: the subtracted term is capped above
at `1` by the `min`, and is at least `-1/3` because the average sentence
length is nonnegative. -/
theorem readability_bounds (doc : DocAnalysis) :
    0 ≤ calculateReadabilityScore doc ∧ calculateReadabilityScore doc ≤ 4 / 3 := by
  unfold calculateReadabilityScore
  constructor
  · have h := min_le_left (1 : ℚ) ((avgSentenceLength doc - 10) / 30)
    linarith
  · have h0 := avgSentenceLength_nonneg doc
    have h1 : -(1 / 3 : ℚ) ≤ (avgSentenceLength doc - 10) / 30 := by linarith
    have h2 : -(1 / 3 : ℚ) ≤ min 1 ((avgSentenceLength doc - 10) / 30) :=
      le_min (by norm_num) h1
    linarith

/-! ### Claims -/

/-- C2: for every `ContentMetrics` record, including out-of-domain ones,
`_calculate_overall_score` returns the clamped weighted sum
`clamp(0, 1, 0.20*min(1, count/20) + 0.20*fact_density + 0.15*novelty +
0.20*analytical_depth + 0.10*readability + 0.10*topic_relevance +
0.05*|sentiment|)`, and the result always lies in `[0, 1]`. -/
theorem overall_score_is_clamped_weighted_sum (m : ContentMetrics) :
    calculateOverallScore m = specOverallScore m ∧
    0 ≤ calculateOverallScore m ∧ calculateOverallScore m ≤ 1 := by
  unfold calculateOverallScore specOverallScore clamp
  refine ⟨?_, ?_, ?_⟩
  · rw [max_min_distrib_left]
    norm_num
  · exact le_min (by norm_num) (le_max_left 0 _)
  · exact min_le_left 1 _

/-- C7: `_generate_evaluation_reasons` returns exactly the concatenation,
in fixed order, of the five independent threshold blocks (low entity
count; high/low fact density; high/low novelty; strong/lacking analytical
depth; overall-quality threshold), with no block suppressing another;
determinism is immediate since it is a pure function of its arguments. -/
theorem evaluation_reasons_fixed_order (m : ContentMetrics) (s : ℚ) :
    generateEvaluationReasons m s = specReasons m s := by
  unfold generateEvaluationReasons specReasons MIN_NAMED_ENTITIES WORTHY_THRESHOLD
  split_ifs <;> simp

/-- C10: the readability score always lies in `[0, 4/3]`; it strictly
exceeds `1` whenever the average sentence length is below `10`; the empty
document scores exactly `4/3`. -/
theorem readability_score_range :
    (∀ doc : DocAnalysis,
      0 ≤ calculateReadabilityScore doc ∧ calculateReadabilityScore doc ≤ 4 / 3) ∧
    (∀ doc : DocAnalysis,
      avgSentenceLength doc < 10 → 1 < calculateReadabilityScore doc) ∧
    calculateReadabilityScore emptyDoc = 4 / 3 := by
  refine ⟨readability_bounds, ?_, by
    norm_num [calculateReadabilityScore, avgSentenceLength, wordCount, emptyDoc]⟩
  intro doc h
  unfold calculateReadabilityScore
  have h1 : (avgSentenceLength doc - 10) / 30 < 0 := by linarith
  have h2 : min 1 ((avgSentenceLength doc - 10) / 30) < 0 :=
    lt_of_le_of_lt (min_le_right _ _) h1
  linarith

/-- Witness for C10: the empty document has average sentence length
`0 < 10` and readability score `4/3 > 1`. -/
theorem readability_score_range_witness :
    1 < calculateReadabilityScore emptyDoc :=
  readability_score_range.2.1 emptyDoc
    (by norm_num [avgSentenceLength, wordCount, emptyDoc])

/-- C8 counterexample: the claim that the readability score is unbounded
below is false — no document scores below `0`, because
`min(1.0, (avg_len - 10)/30)` caps the subtracted term at `1` from above,
not the score from below. -/
theorem readability_not_unbounded_below :
    ¬ (∀ B : ℚ, ∃ doc : DocAnalysis, calculateReadabilityScore doc < B) := by
  intro h
  obtain ⟨doc, hdoc⟩ := h 0
  exact absurd hdoc (not_lt.mpr (readability_bounds doc).1)

/-- C8 (amended): the readability score equals
`1 - min(1, (avg_len - 10)/30)` with
`avg_len = word_count / max(1, sentence_count)` counting only
non-punctuation tokens, but it is bounded below by `0` (the `min` caps
the subtracted term at `1`), not unbounded below. -/
theorem readability_formula_and_lower_bound :
    (∀ doc : DocAnalysis,
      calculateReadabilityScore doc =
        1 - min 1 (((wordCount doc : ℚ) / (max 1 doc.sents : Nat) - 10) / 30)) ∧
    (∀ doc : DocAnalysis, 0 ≤ calculateReadabilityScore doc) :=
  ⟨fun _ => rfl, fun doc => (readability_bounds doc).1⟩

/-! ### C1: novelty label matching -/

/-- Modelled from the spec: the classifier score belonging to a label,
looked up by label identity in the aligned `(labels, scores)` pair. -/
def scoreForLabel (r : ZSResult) (lab : String) : Option ℚ :=
  ((r.labels.zip r.scores).find? (fun p => p.1 == lab)).map (fun p => p.2)

/-- Modelled from the spec: novelty combined by label identity,
`0.7 * score("breaking news") + 0.3 * score("analysis")`, independent of
the order in which the provider returns its `(labels, scores)`. -/
def specNoveltyByLabel (r : ZSResult) : Option ℚ := do
  let b ← scoreForLabel r "breaking news"
  let a ← scoreForLabel r "analysis"
  pure (0.7 * b + 0.3 * a)

/-- A zero-shot result whose labels come back in a different order than
submitted (the real pipeline sorts labels by descending score): here
"analysis" scores `0.4`, "breaking news" scores `0.2`. -/
def permutedZS : ZSResult :=
  { labels := ["analysis", "opinion", "breaking news", "common knowledge"]
    scores := [0.4, 0.3, 0.2, 0.1] }

/-- C1: `_analyze_novelty` reads `scores[0]` and `scores[2]` by position,
so on a provider return whose labels are reordered it computes
`0.7*0.4 + 0.3*0.2 = 0.34`, while matching by label identity (as the
claim states) gives `0.7*0.2 + 0.3*0.4 = 0.26`; the code's own comment
says it weights "breaking news" and "analysis". -/
theorem novelty_weighted_by_position_not_label :
    analyzeNovelty (fun _ _ => Except.ok permutedZS) [] = Except.ok 0.34 ∧
    specNoveltyByLabel permutedZS = some 0.26 ∧
    (0.34 : ℚ) ≠ 0.26 := by
  refine ⟨?_, ?_, by norm_num⟩
  · show Except.ok ((0.4 : ℚ) * 0.7 + 0.2 * 0.3) = Except.ok 0.34
    norm_num
  · show some ((0.7 : ℚ) * 0.2 + 0.3 * 0.4) = some 0.26
    norm_num

/-! ### C5: confidence score -/

/-- Modelled from the spec: the population standard deviation of a list
of values — the square root of the mean of the squared deviations from
the mean. -/
noncomputable def populationStdDev (l : List ℝ) : ℝ :=
  Real.sqrt (((l.map (fun x => (x - l.sum / l.length) ^ 2)).sum) / l.length)

/-- C5: `_calculate_confidence_score` returns exactly `1` minus the
population standard deviation of the four values {fact_density, novelty,
analytical_depth, topic_relevance}; two metrics records agreeing on those
four fields get identical confidence scores, whatever their
named_entities_count, readability_score and sentiment_score. -/
theorem confidence_is_one_minus_stddev_of_four :
    (∀ m : ContentMetrics,
      calculateConfidenceScore m =
        1 - populationStdDev
          [(m.fact_density_score : ℝ), (m.novelty_score : ℝ),
           (m.analytical_depth_score : ℝ), (m.topic_relevance_score : ℝ)]) ∧
    (∀ m₁ m₂ : ContentMetrics,
      m₁.fact_density_score = m₂.fact_density_score →
      m₁.novelty_score = m₂.novelty_score →
      m₁.analytical_depth_score = m₂.analytical_depth_score →
      m₁.topic_relevance_score = m₂.topic_relevance_score →
      calculateConfidenceScore m₁ = calculateConfidenceScore m₂) := by
  constructor
  · intro m
    rfl
  · intro m₁ m₂ h1 h2 h3 h4
    unfold calculateConfidenceScore npStd confidenceInputs
    rw [h1, h2, h3, h4]

/-- Witness for C5: two records sharing the four inputs but with
different entity counts, readability and sentiment have the same
confidence score. -/
theorem confidence_is_one_minus_stddev_of_four_witness :
    calculateConfidenceScore
      { named_entities_count := 3, fact_density_score := 0.1,
        novelty_score := 0.2, analytical_depth_score := 0.3,
        readability_score := 9, topic_relevance_score := 0.4,
        sentiment_score := -1 } =
    calculateConfidenceScore
      { named_entities_count := 77, fact_density_score := 0.1,
        novelty_score := 0.2, analytical_depth_score := 0.3,
        readability_score := -5, topic_relevance_score := 0.4,
        sentiment_score := 1 } :=
  confidence_is_one_minus_stddev_of_four.2 _ _ rfl rfl rfl rfl

/-! ### C6: topic relevance -/

/-- A successful `List.max?` on rationals returns a member that bounds
every element of the list. -/
theorem max?_is_maximum {l : List ℚ} {m : ℚ} (h : l.max? = some m) :
    m ∈ l ∧ ∀ x ∈ l, x ≤ m := by
  have anti : Std.Antisymm ((· : ℚ) ≤ ·) := ⟨fun h1 h2 => le_antisymm h1 h2⟩
  rw [List.max?_eq_some_iff (fun a => le_refl a) (fun a b => max_choice a b)
    (fun a b c => max_le_iff)] at h
  exact h

/-- C6: with an empty categories list `_analyze_topic_relevance` returns
exactly `0.5` for every classifier and every content (the classifier is
never consulted); with a nonempty categories list it returns the maximum
of the scores the classifier yields for the article's own categories. -/
theorem topic_relevance_default_and_maximum :
    (∀ zs (a : Article), a.categories = [] →
      analyzeTopicRelevance zs a = Except.ok 0.5) ∧
    (∀ zs (a : Article) (r : ZSResult) (m : ℚ), a.categories ≠ [] →
      zs a.content a.categories = Except.ok r →
      r.scores.max? = some m →
      analyzeTopicRelevance zs a = Except.ok m ∧
        m ∈ r.scores ∧ ∀ x ∈ r.scores, x ≤ m) := by
  constructor
  · intro zs a h
    unfold analyzeTopicRelevance
    rw [if_pos h]
    rfl
  · intro zs a r m hne hzs hmax
    obtain ⟨hmem, hle⟩ := max?_is_maximum hmax
    refine ⟨?_, hmem, hle⟩
    unfold analyzeTopicRelevance
    rw [if_neg hne]
    show Bind.bind (zs a.content a.categories) _ = _
    rw [hzs]
    show (match r.scores.max? with
      | some m => Except.ok m
      | none => Except.error "ValueError: max() arg is an empty sequence") = _
    rw [hmax]

/-- An article with no categories. -/
def uncategorizedArticle : Article :=
  { title := "t", content := ['x'], source := "s", published_date := 0,
    author := none, url := "u", categories := [] }

/-- An article declaring one category. -/
def politicsArticle : Article :=
  { title := "t", content := ['x'], source := "s", published_date := 0,
    author := none, url := "u", categories := ["politics"] }

/-- Witness for C6: the empty-categories default fires even for a
classifier that would fail, and with categories `["politics"]` and a
classifier returning score `0.8` for it, the result is `0.8`. -/
theorem topic_relevance_default_and_maximum_witness :
    analyzeTopicRelevance (fun _ _ => Except.error "never called")
      uncategorizedArticle = Except.ok 0.5 ∧
    analyzeTopicRelevance
      (fun _ _ => Except.ok { labels := ["politics"], scores := [0.8] })
      politicsArticle = Except.ok 0.8 :=
  ⟨topic_relevance_default_and_maximum.1 _ uncategorizedArticle rfl,
   (topic_relevance_default_and_maximum.2 _ politicsArticle
      { labels := ["politics"], scores := [0.8] } 0.8
      (by simp [politicsArticle]) rfl rfl).1⟩

/-! ### C9: sentiment truncation -/

/-- C9: `_analyze_sentiment` submits exactly the first 512 characters to
the sentiment provider, so any two contents agreeing on their first 512
characters produce the same result, and the provider's top record's score
is returned as-is. -/
theorem sentiment_depends_only_on_first_512 :
    (∀ (sa : List Char → Except String (List SentRes)) (c₁ c₂ : List Char),
      c₁.take 512 = c₂.take 512 →
      analyzeSentiment sa c₁ = analyzeSentiment sa c₂) ∧
    (∀ (sa : List Char → Except String (List SentRes)) (c : List Char)
      (results : List SentRes) (r : SentRes),
      sa (c.take 512) = Except.ok results → results.head? = some r →
      analyzeSentiment sa c = Except.ok r.score) := by
  constructor
  · intro sa c₁ c₂ h
    unfold analyzeSentiment
    rw [h]
  · intro sa c results r h1 h2
    unfold analyzeSentiment
    show Bind.bind (sa (c.take 512)) _ = _
    rw [h1]
    show (match results.head? with
      | some r => Except.ok r.score
      | none => Except.error "IndexError: list index out of range") = _
    rw [h2]

/-- Witness for C9: two 513-character contents that agree on their first
512 characters but end differently get the same sentiment result. -/
theorem sentiment_depends_only_on_first_512_witness :
    analyzeSentiment (fun _ => Except.ok [{ score := 0.9, label := "POSITIVE" }])
      (List.replicate 513 'a') =
    analyzeSentiment (fun _ => Except.ok [{ score := 0.9, label := "POSITIVE" }])
      (List.replicate 512 'a' ++ ['b']) :=
  sentiment_depends_only_on_first_512.1 _ _ _ (by
    rw [List.take_replicate, List.take_left' (List.length_replicate 512 'a')]
    norm_num)

/-! ### C3: worthiness threshold -/

/-- The worthiness contract on an evaluation outcome: a successful
evaluation's flag is exactly the comparison of its own overall score
against the fixed `0.7` threshold. -/
def worthyInvariant (r : Except String ArticleEvaluation) : Prop :=
  match r with
  | Except.ok e =>
      e.is_worthy = decide (e.overall_score ≥ WORTHY_THRESHOLD) ∧
      (e.is_worthy = true ↔ e.overall_score ≥ 0.7)
  | Except.error _ => True

/-- C3: every evaluation that `evaluate` produces carries
`is_worthy = (overall_score ≥ 0.7)` exactly — the flag is the decidable
comparison against the fixed threshold, so a score of exactly `0.7` is
worthy and any score strictly below is not. -/
theorem is_worthy_iff_score_at_threshold :
    ∀ (P : Providers) (article_id : String) (now : Int) (a : Article),
      worthyInvariant (evaluate P article_id now a) := by
  intro P article_id now a
  unfold evaluate
  cases h1 : P.nlp a.content with
  | error e => exact True.intro
  | ok doc =>
    show worthyInvariant (Bind.bind (calculateMetrics P a doc)
      (fun metrics => pure (assembleEvaluation article_id now metrics)))
    cases h2 : calculateMetrics P a doc with
    | error e => exact True.intro
    | ok m =>
      refine ⟨rfl, ?_⟩
      show decide (calculateOverallScore m ≥ WORTHY_THRESHOLD) = true ↔
        calculateOverallScore m ≥ 0.7
      rw [decide_eq_true_eq]
      rfl

/-! ### C4: error handling of `evaluate` -/

/-- Providers that never fail: the document analysis is the empty
analysis, the zero-shot classifier scores the first submitted label `1`
and the rest `0`, the sentiment pipeline returns one positive record. -/
def okProviders : Providers :=
  { nlp := fun _ => Except.ok emptyDoc
    zero_shot := fun _ labels =>
      Except.ok { labels := labels, scores := [1, 0, 0, 0] }
    sentiment := fun _ => Except.ok [{ score := 0.9, label := "POSITIVE" }] }

/-- An article whose content is the empty string. -/
def emptyArticle : Article :=
  { title := "", content := [], source := "", published_date := 0,
    author := none, url := "", categories := [] }

/-- C4 counterexample: on an article with empty content, `evaluate` does
not fail fast — it runs the providers and, when they all succeed,
returns a completed evaluation.  There is no empty-content guard and no
EvaluationError anywhere in the code (`MIN_CONTENT_LENGTH` is declared
but never read). -/
theorem evaluate_succeeds_on_empty_content :
    (evaluate okProviders "id" 0 emptyArticle).isOk = true := rfl

/-- C4 (amended): `evaluate` never substitutes defaults for a failed
provider call — every one of the four provider call sites aborts the
evaluation with exactly the provider's own error: the document analysis,
the zero-shot call at the novelty labels, the zero-shot call at the
article's categories (when the preceding novelty step succeeded), and
the sentiment call (when novelty and topic relevance succeeded); no
partial `ContentMetrics` is produced. -/
theorem provider_failure_aborts_evaluation :
    (∀ (P : Providers) (article_id : String) (now : Int) (a : Article)
      (msg : String),
      P.nlp a.content = Except.error msg →
      evaluate P article_id now a = Except.error msg) ∧
    (∀ (P : Providers) (article_id : String) (now : Int) (a : Article)
      (doc : DocAnalysis) (msg : String),
      P.nlp a.content = Except.ok doc →
      P.zero_shot a.content noveltyLabels = Except.error msg →
      evaluate P article_id now a = Except.error msg) ∧
    (∀ (P : Providers) (article_id : String) (now : Int) (a : Article)
      (doc : DocAnalysis) (nov : ℚ) (msg : String),
      P.nlp a.content = Except.ok doc →
      analyzeNovelty P.zero_shot a.content = Except.ok nov →
      a.categories ≠ [] →
      P.zero_shot a.content a.categories = Except.error msg →
      evaluate P article_id now a = Except.error msg) ∧
    (∀ (P : Providers) (article_id : String) (now : Int) (a : Article)
      (doc : DocAnalysis) (nov topic : ℚ) (msg : String),
      P.nlp a.content = Except.ok doc →
      analyzeNovelty P.zero_shot a.content = Except.ok nov →
      analyzeTopicRelevance P.zero_shot a = Except.ok topic →
      P.sentiment (a.content.take 512) = Except.error msg →
      evaluate P article_id now a = Except.error msg) := by
  refine ⟨?_, ?_, ?_, ?_⟩
  · intro P article_id now a msg h
    unfold evaluate
    rw [h]
    rfl
  · intro P article_id now a doc msg h1 h2
    unfold evaluate
    rw [h1]
    show Bind.bind (calculateMetrics P a doc) _ = _
    unfold calculateMetrics analyzeNovelty
    rw [h2]
    rfl
  · intro P article_id now a doc nov msg h1 h2 hcat h3
    unfold evaluate
    rw [h1]
    show Bind.bind (calculateMetrics P a doc) _ = _
    unfold calculateMetrics
    rw [h2]
    show Bind.bind (Bind.bind (analyzeTopicRelevance P.zero_shot a) _) _ = _
    unfold analyzeTopicRelevance
    rw [if_neg hcat, h3]
    rfl
  · intro P article_id now a doc nov topic msg h1 h2 h3 h4
    unfold evaluate
    rw [h1]
    show Bind.bind (calculateMetrics P a doc) _ = _
    unfold calculateMetrics
    rw [h2, h3]
    show Bind.bind (Bind.bind (analyzeSentiment P.sentiment a.content) _) _ = _
    unfold analyzeSentiment
    rw [h4]
    rfl

/-- Providers whose document analysis raises. -/
def nlpFailProviders : Providers :=
  { nlp := fun _ => Except.error "nlp raised"
    zero_shot := fun _ labels =>
      Except.ok { labels := labels, scores := [1, 0, 0, 0] }
    sentiment := fun _ => Except.ok [{ score := 0.9, label := "POSITIVE" }] }

/-- Providers whose zero-shot classifier raises. -/
def zsFailProviders : Providers :=
  { nlp := fun _ => Except.ok emptyDoc
    zero_shot := fun _ _ => Except.error "zero-shot raised"
    sentiment := fun _ => Except.ok [{ score := 0.9, label := "POSITIVE" }] }

/-- Providers whose zero-shot classifier answers the fixed novelty labels
but raises on any other label list, such as an article's categories. -/
def topicFailProviders : Providers :=
  { nlp := fun _ => Except.ok emptyDoc
    zero_shot := fun _ labels =>
      if labels = noveltyLabels then
        Except.ok { labels := labels, scores := [1, 0, 0, 0] }
      else Except.error "zero-shot raised on categories"
    sentiment := fun _ => Except.ok [{ score := 0.9, label := "POSITIVE" }] }

/-- Providers whose sentiment pipeline raises. -/
def sentFailProviders : Providers :=
  { nlp := fun _ => Except.ok emptyDoc
    zero_shot := fun _ labels =>
      Except.ok { labels := labels, scores := [1, 0, 0, 0] }
    sentiment := fun _ => Except.error "sentiment raised" }

/-- Witness for C4 (amended): all four provider failure modes — document
analysis, zero-shot at the novelty labels, zero-shot at the article's
categories, and sentiment — propagate the provider's own error out of
`evaluate`. -/
theorem provider_failure_aborts_evaluation_witness :
    evaluate nlpFailProviders "id" 0 emptyArticle = Except.error "nlp raised" ∧
    evaluate zsFailProviders "id" 0 emptyArticle = Except.error "zero-shot raised" ∧
    evaluate topicFailProviders "id" 0 politicsArticle =
      Except.error "zero-shot raised on categories" ∧
    evaluate sentFailProviders "id" 0 emptyArticle = Except.error "sentiment raised" :=
  ⟨provider_failure_aborts_evaluation.1 _ _ _ _ _ rfl,
   provider_failure_aborts_evaluation.2.1 _ _ _ _ emptyDoc _ rfl rfl,
   provider_failure_aborts_evaluation.2.2.1 _ _ _ _ emptyDoc (1 * 0.7 + 0 * 0.3)
     _ rfl (by rfl) (by simp [politicsArticle]) (by rfl),
   provider_failure_aborts_evaluation.2.2.2 _ _ _ _ emptyDoc (1 * 0.7 + 0 * 0.3)
     0.5 _ rfl (by rfl) (by rfl) rfl⟩

end NewsEval
